import Mathlib

/-!
Verification of the datavault-agent core.

The development shallowly embeds the two source files that carry the
repository's logic:

* `src/tools/parquetExplorer.ts` — the dbt subprocess runner with its
  output extraction (`runDbtOperation`) and the three tool facades
  (`listParquetFiles`, `getParquetSchema`, `getParquetData`);
* `src/utils/fileOperations.ts` — the convention-driven path resolvers
  (`getConceptPaths`, `getHubPath`, …, `getMartPath`) and the YAML
  catalog mutator `appendToSourcesYaml`.

JavaScript strings are modelled as `List Char` (`Str`); the regular
expression `/^\d{2}:\d{2}:\d{2}\s{2}(.*)$/` is modelled character by
character, including the facts that `\s` matches any JavaScript
whitespace character (not just a space), that `.` refuses line
terminators and that `$` anchors at the end of the string.  Process-wide
configuration (`PROJECT_ROOT`, `DEFAULT_CONCEPT`), which the source
reads from the environment once at startup, is passed explicitly as a
`Config` value.  The subprocess is abstracted as a function argument
(`Runner`), so "the runner is never invoked" is expressed as the result
being independent of the runner.
-/

/-- A JavaScript string, modelled as its sequence of characters. -/
abbrev Str := List Char

/-- The character class of the JavaScript regular-expression escape `\s`
(which coincides with the set of characters removed by
`String.prototype.trim`): tab, line feed, vertical tab, form feed,
carriage return, space, and the Unicode space separators plus the BOM. -/
def jsWhitespace (c : Char) : Bool :=
  c == ' ' || c == '\t' || c == '\n' || c == '\x0b' || c == '\x0c' ||
  c == '\r' || c == '\u00a0' || c == '\u1680' ||
  (decide ('\u2000' ≤ c) && decide (c ≤ '\u200a')) ||
  c == '\u2028' || c == '\u2029' || c == '\u202f' || c == '\u205f' ||
  c == '\u3000' || c == '\ufeff'

/-- The JavaScript line-terminator characters, which `.` in a regular
expression (without the `s` flag) refuses to match. -/
def jsLineTerminator (c : Char) : Bool :=
  c == '\n' || c == '\r' || c == '\u2028' || c == '\u2029'

/-- JavaScript `String.prototype.trim`: remove whitespace (including line
terminators) from both ends. -/
def jsTrim (s : Str) : Str :=
  ((s.dropWhile jsWhitespace).reverse.dropWhile jsWhitespace).reverse

/-- JavaScript `stdout.split('\n')` from `runDbtOperation`
(src/tools/parquetExplorer.ts line 50): split on every line feed,
keeping empty pieces. -/
def splitLines : Str → List Str
  | [] => [[]]
  | c :: cs =>
    if c = '\n' then [] :: splitLines cs
    else
      match splitLines cs with
      | l :: ls => (c :: l) :: ls
      | [] => [[c]]

/-- The test `line.match(/^\d{2}:\d{2}:\d{2}\s{2}(.*)$/)` from
`runDbtOperation` (src/tools/parquetExplorer.ts line 56), returning the
captured group `match[1]` when the line matches.  The match succeeds
exactly when the line starts with two digits, `:`, two digits, `:`, two
digits, then two `\s` characters, and the remainder (captured by
`(.*)$`) contains no line terminator. -/
def frameworkContent : Str → Option Str
  | d1 :: d2 :: c1 :: d3 :: d4 :: c2 :: d5 :: d6 :: w1 :: w2 :: rest =>
    if d1.isDigit && d2.isDigit && c1 == ':' && d3.isDigit && d4.isDigit &&
       c2 == ':' && d5.isDigit && d6.isDigit &&
       jsWhitespace w1 && jsWhitespace w2 &&
       rest.all (fun c => !(jsLineTerminator c))
    then some rest else none
  | _ => none

/-- The six literal startup-message contents skipped inside the loop of
`runDbtOperation` (src/tools/parquetExplorer.ts lines 60–65). -/
def startupDenylist : List Str :=
  ["Running with dbt=".toList, "Registered adapter:".toList,
   "[WARNING]".toList, "There are".toList, "- models.".toList,
   "Found ".toList]

/-- The `content.startsWith(...)` chain of `runDbtOperation`: the content
is skipped when it starts with one of the six denylist entries. -/
def isStartupNoise (content : Str) : Bool :=
  startupDenylist.any fun d => d.isPrefixOf content

/-- The body of the loop of `runDbtOperation`
(src/tools/parquetExplorer.ts lines 54–70) for one line: the content
pushed onto `outputLines` when the line matches the timestamp pattern
and is not a startup message, `none` otherwise. -/
def keepContent (line : Str) : Option Str :=
  match frameworkContent line with
  | some content => if isStartupNoise content then none else some content
  | none => none

/-- The `outputLines` accumulated by the loop of `runDbtOperation`
(src/tools/parquetExplorer.ts lines 51–71): the contents of the lines
that match the timestamp pattern and are not startup noise, in original
order. -/
def survivingContents (stdout : Str) : List Str :=
  (splitLines stdout).filterMap keepContent

/-- The value resolved on a zero exit by `runDbtOperation`
(src/tools/parquetExplorer.ts line 73):
`outputLines.join('\n').trim() || stdout` — the newline-joined, trimmed
surviving contents, or the raw standard output when that string is
empty (a JavaScript falsy fallback). -/
def extractOutput (stdout : Str) : Str :=
  let payload := jsTrim (List.intercalate ['\n'] (survivingContents stdout))
  if payload.isEmpty then stdout else payload

/-- Decimal rendering of a natural number, as JavaScript template
interpolation renders a non-negative integer. -/
def natToStr (n : Nat) : Str := Nat.toDigits 10 n

/-- Decimal rendering of an integer, as JavaScript template
interpolation renders it. -/
def intToStr (n : Int) : Str :=
  if n < 0 then '-' :: natToStr n.natAbs else natToStr n.toNat

/-- The `close` handler of `runDbtOperation`
(src/tools/parquetExplorer.ts lines 43–74): a non-zero exit code
resolves to the failure text embedding the exit code and
`stderr || stdout`; a zero exit code resolves to the extracted output. -/
def runDbtClose (stdout stderr : Str) (code : Int) : Str :=
  if code ≠ 0 then
    "❌ dbt Fehler (Exit Code ".toList ++ intToStr code ++ "):\n".toList ++
      (if stderr.isEmpty then stdout else stderr)
  else extractOutput stdout

/-- The `error` handler of `runDbtOperation`
(src/tools/parquetExplorer.ts lines 76–78): a spawn error resolves to
the failure text embedding the underlying error message. -/
def runDbtSpawnError (message : Str) : Str :=
  "❌ Fehler beim Ausführen von dbt: ".toList ++ message

/-- A JSON-serialisable argument value forwarded to
`runDbtOperation`'s argument bag. -/
inductive JVal : Type
  | str : Str → JVal
  | num : Int → JVal
deriving DecidableEq

/-- The subprocess runner abstracted as a function: macro name and
argument bag to resolved text.  The facades are parameterised over it so
that non-invocation is expressible as runner-independence. -/
abbrev Runner := Str → List (Str × JVal) → Str

/-- JavaScript falsiness of a possibly-missing string field: `!x` holds
when the field is absent (`undefined`) or the empty string. -/
def jsFalsyOpt : Option Str → Bool
  | none => true
  | some s => s.isEmpty

/-- Input of `listParquetFiles`; the field is optional to model callers
that omit it. -/
structure ListFilesInput where
  folder_path : Option Str

/-- Input of `getParquetSchema`. -/
structure SchemaInput where
  folder_path : Option Str
  file_name : Option Str

/-- Input of `getParquetData`; `limit` is declared optional in the
source interface. -/
structure DataInput where
  folder_path : Option Str
  file_name : Option Str
  limit : Option Int

/-- `listParquetFiles` (src/tools/parquetExplorer.ts lines 90–98):
validate `folder_path`, then delegate to the runner with macro
`list_parquet_files`. -/
def listParquetFiles (run : Runner) (input : ListFilesInput) : Str :=
  if jsFalsyOpt input.folder_path then
    "❌ folder_path ist erforderlich (z.B. \"jira/sql\" oder \"werkportal/postgres\")".toList
  else
    run "list_parquet_files".toList
      [("folder_path".toList, JVal.str (input.folder_path.getD []))]

/-- `getParquetSchema` (src/tools/parquetExplorer.ts lines 131–139):
validate both fields, then delegate with macro `get_parquet_schema`. -/
def getParquetSchema (run : Runner) (input : SchemaInput) : Str :=
  if jsFalsyOpt input.folder_path || jsFalsyOpt input.file_name then
    "❌ folder_path und file_name sind erforderlich".toList
  else
    run "get_parquet_schema".toList
      [("folder_path".toList, JVal.str (input.folder_path.getD [])),
       ("file_name".toList, JVal.str (input.file_name.getD []))]

/-- `getParquetData` (src/tools/parquetExplorer.ts lines 180–188):
destructure with `limit = 5` as default, validate the two string
fields, then delegate with macro `get_parquet_data`, forwarding the
limit verbatim. -/
def getParquetData (run : Runner) (input : DataInput) : Str :=
  if jsFalsyOpt input.folder_path || jsFalsyOpt input.file_name then
    "❌ folder_path und file_name sind erforderlich".toList
  else
    run "get_parquet_data".toList
      [("folder_path".toList, JVal.str (input.folder_path.getD [])),
       ("file_name".toList, JVal.str (input.file_name.getD [])),
       ("limit".toList, JVal.num (input.limit.getD 5))]

/-- Process-wide configuration of src/utils/fileOperations.ts:
`PROJECT_ROOT` (resolved from the module location) and
`DEFAULT_CONCEPT` (environment variable with fallback `werkportal`),
both fixed for the lifetime of the process. -/
structure Config where
  projectRoot : Str
  defaultConcept : Str

/-- Node's `path.join` of two segments; exact for the source's usage,
where the appended segments are plain names without separator or dot
components, so no normalisation applies. -/
def pathJoin (a b : Str) : Str := a ++ '/' :: b

/-- `PATHS.models` (src/utils/fileOperations.ts line 30). -/
def PATHS_models (cfg : Config) : Str :=
  pathJoin cfg.projectRoot "models".toList

/-- `PATHS.staging` (line 31). -/
def PATHS_staging (cfg : Config) : Str :=
  pathJoin (PATHS_models cfg) "staging".toList

/-- `PATHS.rawVault` (line 32). -/
def PATHS_rawVault (cfg : Config) : Str :=
  pathJoin (PATHS_models cfg) "raw_vault".toList

/-- `PATHS.businessVault` (line 33). -/
def PATHS_businessVault (cfg : Config) : Str :=
  pathJoin (PATHS_models cfg) "business_vault".toList

/-- `PATHS.mart` (line 34). -/
def PATHS_mart (cfg : Config) : Str :=
  pathJoin (PATHS_models cfg) "mart".toList

/-- The record returned by `getConceptPaths`
(src/utils/fileOperations.ts lines 46–54). -/
structure ConceptPaths where
  root : Str
  hubs : Str
  satellites : Str
  links : Str

/-- `getConceptPaths` (lines 46–54): the concept's directory under the
raw vault together with its `hubs/`, `satellites/` and `links/`
subdirectories. -/
def getConceptPaths (cfg : Config) (concept : Str := cfg.defaultConcept) :
    ConceptPaths :=
  let conceptDir := pathJoin (PATHS_rawVault cfg) concept
  { root := conceptDir
    hubs := pathJoin conceptDir "hubs".toList
    satellites := pathJoin conceptDir "satellites".toList
    links := pathJoin conceptDir "links".toList }

/-- `getHubPath` (lines 59–62): `hub_<name>.sql` under the concept's
`hubs/` directory. -/
def getHubPath (cfg : Config) (entityName : Str)
    (concept : Str := cfg.defaultConcept) : Str :=
  pathJoin (getConceptPaths cfg concept).hubs
    ("hub_".toList ++ entityName ++ ".sql".toList)

/-- `getSatellitePath` (lines 67–71): `sat_<name>.sql`, or
`eff_sat_<name>.sql` for an effectivity satellite, under the concept's
`satellites/` directory. -/
def getSatellitePath (cfg : Config) (entityName : Str)
    (concept : Str := cfg.defaultConcept) (isEffectivity : Bool := false) :
    Str :=
  let pre := if isEffectivity then "eff_sat_".toList else "sat_".toList
  pathJoin (getConceptPaths cfg concept).satellites
    (pre ++ entityName ++ ".sql".toList)

/-- `getLinkPath` (lines 76–79): `link_<name>.sql` under the concept's
`links/` directory. -/
def getLinkPath (cfg : Config) (linkName : Str)
    (concept : Str := cfg.defaultConcept) : Str :=
  pathJoin (getConceptPaths cfg concept).links
    ("link_".toList ++ linkName ++ ".sql".toList)

/-- `getStagingPath` (lines 84–86): `stg_<name>.sql` directly under the
staging layer directory (no concept parameter). -/
def getStagingPath (cfg : Config) (entityName : Str) : Str :=
  pathJoin (PATHS_staging cfg) ("stg_".toList ++ entityName ++ ".sql".toList)

/-- `getPitPath` (lines 91–93): `pit_<name>.sql` directly under the
business vault directory (no concept parameter). -/
def getPitPath (cfg : Config) (entityName : Str) : Str :=
  pathJoin (PATHS_businessVault cfg)
    ("pit_".toList ++ entityName ++ ".sql".toList)

/-- `getMartPath` (lines 98–103): `<viewName>.sql` under the mart
directory, with an optional extra subdirectory (no concept parameter). -/
def getMartPath (cfg : Config) (viewName : Str)
    (subdir : Option Str := none) : Str :=
  match subdir with
  | some sd => pathJoin (pathJoin (PATHS_mart cfg) sd)
      (viewName ++ ".sql".toList)
  | none => pathJoin (PATHS_mart cfg) (viewName ++ ".sql".toList)

/-- A source group of the sources.yml catalog as `appendToSourcesYaml`
sees it: a possibly-present `tables` list (absent key modelled as
`none`; a present list, even empty, is truthy in JavaScript) plus the
group's other keys, abstracted as `extra`. -/
structure SourceGroup (τ ε : Type) where
  tables : Option (List τ)
  extra : ε

/-- The parsed sources.yml document: the ordered `sources` list plus any
other top-level keys, abstracted as `extra`. -/
structure SourcesDoc (τ ε δ : Type) where
  sources : List (SourceGroup τ ε)
  extra : δ

/-- `sources.sources.find(s => s.tables)` followed by
`stagingSource.tables.push(tableDefinition)`: push onto the tables list
of the first group whose `tables` key is present, leaving all other
groups untouched; `none` when no group has a `tables` key. -/
def pushToFirstTables {τ ε : Type} (td : τ) :
    List (SourceGroup τ ε) → Option (List (SourceGroup τ ε))
  | [] => none
  | g :: gs =>
    match g.tables with
    | some ts => some ({ g with tables := some (ts ++ [td]) } :: gs)
    | none => (pushToFirstTables td gs).map (g :: ·)

/-- `appendToSourcesYaml` (src/utils/fileOperations.ts lines 201–211) as
a transformation of the parsed document: the document written back when
a group with a `tables` key exists, `none` when the function returns
without writing. -/
def appendToSourcesYaml {τ ε δ : Type} (doc : SourcesDoc τ ε δ) (td : τ) :
    Option (SourcesDoc τ ε δ) :=
  (pushToFirstTables td doc.sources).map fun ss => { doc with sources := ss }

/-- The classification the specification describes for claim C7,
written from its words: the line begins with `HH:MM:SS` followed by
exactly two space characters, and the candidate content is the
remainder of the line after that ten-character prefix. -/
def specTimestampTwoSpaces (line : Str) : Bool :=
  decide (10 ≤ line.length) &&
  (line.getD 0 'x').isDigit && (line.getD 1 'x').isDigit &&
  (line.getD 2 'x') == ':' &&
  (line.getD 3 'x').isDigit && (line.getD 4 'x').isDigit &&
  (line.getD 5 'x') == ':' &&
  (line.getD 6 'x').isDigit && (line.getD 7 'x').isDigit &&
  (line.getD 8 'x') == ' ' && (line.getD 9 'x') == ' '

/-- The amended classification for claim C7, written from the amended
words: `HH:MM:SS` followed by two JavaScript whitespace characters,
with a remainder free of line terminators. -/
def specTimestampShape (line : Str) : Bool :=
  decide (10 ≤ line.length) &&
  (line.getD 0 'x').isDigit && (line.getD 1 'x').isDigit &&
  (line.getD 2 'x') == ':' &&
  (line.getD 3 'x').isDigit && (line.getD 4 'x').isDigit &&
  (line.getD 5 'x') == ':' &&
  (line.getD 6 'x').isDigit && (line.getD 7 'x').isDigit &&
  jsWhitespace (line.getD 8 'x') && jsWhitespace (line.getD 9 'x') &&
  (line.drop 10).all (fun c => !(jsLineTerminator c))

/-- A list with an element is not reported empty by `List.isEmpty`. -/
theorem isEmpty_false_of_ne_nil {α : Type} {l : List α} (h : l ≠ []) :
    l.isEmpty = false := by
  cases l with
  | nil => exact absurd rfl h
  | cons a as => rfl

/-- C2: for every raw stdout text consisting solely of lines that do not
match the timestamp shape (so no framework lines survive filtering),
the output extractor returns the original raw text unchanged as a
fallback. -/
theorem extractOutput_fallback_of_no_framework (raw : Str)
    (h : ∀ line ∈ splitLines raw, frameworkContent line = none) :
    extractOutput raw = raw := by
  have hs : survivingContents raw = [] := by
    simp only [survivingContents, List.filterMap_eq_nil_iff]
    intro line hline
    simp [keepContent, h line hline]
  have ht : jsTrim (List.intercalate ['\n'] ([] : List Str)) = [] := by decide
  simp [extractOutput, hs, ht]

/-- Witness for C2 on the raw text `"hello\nworld"`, none of whose lines
is timestamped. -/
theorem extractOutput_fallback_of_no_framework_witness :
    (∀ line ∈ splitLines "hello\nworld".toList, frameworkContent line = none) ∧
    extractOutput "hello\nworld".toList = "hello\nworld".toList :=
  ⟨by decide, extractOutput_fallback_of_no_framework _ (by decide)⟩

/-- C10: the fallback to the raw stdout text triggers exactly when the
newline-joined, trimmed surviving contents form the empty string — also
when framework lines survive but their contents are whitespace-only,
not only when no framework line survives. -/
theorem extractOutput_fallback_of_empty_payload (raw : Str)
    (h : jsTrim (List.intercalate ['\n'] (survivingContents raw)) = []) :
    extractOutput raw = raw := by
  simp [extractOutput, h]

/-- Witness for C10 on `"zz\n01:02:03   "`: the timestamped line
survives filtering with whitespace-only content, yet the raw text is
returned. -/
theorem extractOutput_fallback_of_empty_payload_witness :
    survivingContents "zz\n01:02:03   ".toList ≠ [] ∧
    extractOutput "zz\n01:02:03   ".toList = "zz\n01:02:03   ".toList :=
  ⟨by decide, extractOutput_fallback_of_empty_payload _ (by decide)⟩

/-- C4: on a non-zero exit the close handler resolves with the failure
text embedding the exit code and the captured stderr, falling back to
the captured stdout when stderr is empty; a spawn error resolves with
the failure text embedding the underlying message.  Both handlers are
total functions into text, modelling that the promise always resolves
and is never rejected. -/
theorem runDbt_failure_text (stdout stderr message : Str) (code : Int)
    (h : code ≠ 0) :
    (stderr ≠ [] → runDbtClose stdout stderr code =
      "❌ dbt Fehler (Exit Code ".toList ++ intToStr code ++ "):\n".toList ++
        stderr) ∧
    (stderr = [] → runDbtClose stdout stderr code =
      "❌ dbt Fehler (Exit Code ".toList ++ intToStr code ++ "):\n".toList ++
        stdout) ∧
    runDbtSpawnError message =
      "❌ Fehler beim Ausführen von dbt: ".toList ++ message := by
  refine ⟨fun hne => ?_, fun he => ?_, rfl⟩
  · simp [runDbtClose, h, isEmpty_false_of_ne_nil hne]
  · subst he
    simp [runDbtClose, h]

/-- Witness for C4: exit code 1 with stderr `"Error: connection
refused"` yields the failure text embedding both. -/
theorem runDbt_failure_text_witness :
    runDbtClose "out".toList "Error: connection refused".toList 1 =
      "❌ dbt Fehler (Exit Code 1):\nError: connection refused".toList :=
  ((runDbt_failure_text "out".toList "Error: connection refused".toList
      "x".toList 1 (by decide)).1 (by decide)).trans (by decide)

/-- C6: every path resolver is a pure, total function of its arguments
and the values of the fixed process-wide project root and default
concept — two resolutions of the same (kind, name, concept) triple
under configurations with equal values yield byte-identical paths, and
an omitted concept resolves exactly as the default concept passed
explicitly.  The resolvers perform no I/O and keep no state by
construction of the embedding. -/
theorem pathResolvers_deterministic (cfg cfg' : Config)
    (hroot : cfg.projectRoot = cfg'.projectRoot)
    (hdef : cfg.defaultConcept = cfg'.defaultConcept)
    (name concept sub : Str) (eff : Bool) :
    getHubPath cfg name concept = getHubPath cfg' name concept ∧
    getSatellitePath cfg name concept eff =
      getSatellitePath cfg' name concept eff ∧
    getLinkPath cfg name concept = getLinkPath cfg' name concept ∧
    getStagingPath cfg name = getStagingPath cfg' name ∧
    getPitPath cfg name = getPitPath cfg' name ∧
    getMartPath cfg name (some sub) = getMartPath cfg' name (some sub) ∧
    getMartPath cfg name none = getMartPath cfg' name none ∧
    getConceptPaths cfg concept = getConceptPaths cfg' concept ∧
    getHubPath cfg name = getHubPath cfg name cfg.defaultConcept := by
  obtain ⟨r, d⟩ := cfg
  obtain ⟨r', d'⟩ := cfg'
  cases hroot
  cases hdef
  exact ⟨rfl, rfl, rfl, rfl, rfl, rfl, rfl, rfl, rfl⟩

/-- Witness for C6 at a concrete configuration and entity. -/
theorem pathResolvers_deterministic_witness :
    getHubPath ⟨"/p".toList, "werkportal".toList⟩ "customer".toList
        "jira".toList =
      getHubPath ⟨"/p".toList, "werkportal".toList⟩ "customer".toList
        "jira".toList :=
  (pathResolvers_deterministic ⟨"/p".toList, "werkportal".toList⟩
      ⟨"/p".toList, "werkportal".toList⟩ rfl rfl "customer".toList
      "jira".toList "m".toList false).1

/-- C8: with both string fields present and non-empty, an omitted limit
is forwarded as the default 5, and a caller-supplied limit is forwarded
verbatim for every integer — in particular values above 100 are not
clamped. -/
theorem getParquetData_limit_forwarding (run : Runner) (fp fn : Str)
    (h1 : fp ≠ []) (h2 : fn ≠ []) :
    getParquetData run ⟨some fp, some fn, none⟩ =
      run "get_parquet_data".toList
        [("folder_path".toList, JVal.str fp),
         ("file_name".toList, JVal.str fn),
         ("limit".toList, JVal.num 5)] ∧
    ∀ n : Int, getParquetData run ⟨some fp, some fn, some n⟩ =
      run "get_parquet_data".toList
        [("folder_path".toList, JVal.str fp),
         ("file_name".toList, JVal.str fn),
         ("limit".toList, JVal.num n)] := by
  constructor
  · simp [getParquetData, jsFalsyOpt, isEmpty_false_of_ne_nil h1,
      isEmpty_false_of_ne_nil h2]
  · intro n
    simp [getParquetData, jsFalsyOpt, isEmpty_false_of_ne_nil h1,
      isEmpty_false_of_ne_nil h2]

/-- Witness for C8: the caller-supplied limit 250, above the stated
maximum 100, is forwarded verbatim. -/
theorem getParquetData_limit_forwarding_witness :
    getParquetData (fun _ _ => []) ⟨some "a".toList, some "b".toList, some 250⟩ =
      (fun _ _ => ([] : Str)) "get_parquet_data".toList
        [("folder_path".toList, JVal.str "a".toList),
         ("file_name".toList, JVal.str "b".toList),
         ("limit".toList, JVal.num 250)] :=
  (getParquetData_limit_forwarding (fun _ _ => []) "a".toList "b".toList
      (by decide) (by decide)).2 250

/-- C3: for each facade capability, an input whose required fields are
missing yields the user-facing validation diagnostic, and the result
does not depend on the runner — the subprocess runner is never
invoked. -/
theorem facade_validation_short_circuits (r r2 : Runner)
    (i1 : ListFilesInput) (i2 : SchemaInput) (i3 : DataInput)
    (h1 : i1.folder_path = none)
    (h2 : i2.folder_path = none ∨ i2.file_name = none)
    (h3 : i3.folder_path = none ∨ i3.file_name = none) :
    (listParquetFiles r i1 =
        "❌ folder_path ist erforderlich (z.B. \"jira/sql\" oder \"werkportal/postgres\")".toList ∧
      listParquetFiles r i1 = listParquetFiles r2 i1) ∧
    (getParquetSchema r i2 =
        "❌ folder_path und file_name sind erforderlich".toList ∧
      getParquetSchema r i2 = getParquetSchema r2 i2) ∧
    (getParquetData r i3 =
        "❌ folder_path und file_name sind erforderlich".toList ∧
      getParquetData r i3 = getParquetData r2 i3) := by
  have e1 : listParquetFiles r i1 =
      "❌ folder_path ist erforderlich (z.B. \"jira/sql\" oder \"werkportal/postgres\")".toList := by
    simp [listParquetFiles, h1, jsFalsyOpt]
  have e1' : listParquetFiles r2 i1 =
      "❌ folder_path ist erforderlich (z.B. \"jira/sql\" oder \"werkportal/postgres\")".toList := by
    simp [listParquetFiles, h1, jsFalsyOpt]
  have e2 : getParquetSchema r i2 =
      "❌ folder_path und file_name sind erforderlich".toList := by
    rcases h2 with h | h <;> simp [getParquetSchema, h, jsFalsyOpt]
  have e2' : getParquetSchema r2 i2 =
      "❌ folder_path und file_name sind erforderlich".toList := by
    rcases h2 with h | h <;> simp [getParquetSchema, h, jsFalsyOpt]
  have e3 : getParquetData r i3 =
      "❌ folder_path und file_name sind erforderlich".toList := by
    rcases h3 with h | h <;> simp [getParquetData, h, jsFalsyOpt]
  have e3' : getParquetData r2 i3 =
      "❌ folder_path und file_name sind erforderlich".toList := by
    rcases h3 with h | h <;> simp [getParquetData, h, jsFalsyOpt]
  exact ⟨⟨e1, e1.trans e1'.symm⟩, ⟨e2, e2.trans e2'.symm⟩,
    ⟨e3, e3.trans e3'.symm⟩⟩

/-- Witness for C3: a missing folder path on the list capability yields
the diagnostic for two distinct runners. -/
theorem facade_validation_short_circuits_witness :
    listParquetFiles (fun _ _ => "A".toList) ⟨none⟩ =
      "❌ folder_path ist erforderlich (z.B. \"jira/sql\" oder \"werkportal/postgres\")".toList :=
  ((facade_validation_short_circuits (fun _ _ => "A".toList)
      (fun _ _ => "B".toList) ⟨none⟩ ⟨none, some "f".toList⟩
      ⟨some "p".toList, none, none⟩ rfl (Or.inl rfl) (Or.inr rfl)).1).1
/-- Character-list value of the literal `"models"`. -/
theorem lit_models : "models".toList = ['m', 'o', 'd', 'e', 'l', 's'] := by decide

/-- Character-list value of the literal `"staging"`. -/
theorem lit_staging : "staging".toList = ['s', 't', 'a', 'g', 'i', 'n', 'g'] := by decide

/-- Character-list value of the literal `"raw_vault"`. -/
theorem lit_raw_vault : "raw_vault".toList = ['r', 'a', 'w', '_', 'v', 'a', 'u', 'l', 't'] := by decide

/-- Character-list value of the literal `"business_vault"`. -/
theorem lit_business_vault : "business_vault".toList = ['b', 'u', 's', 'i', 'n', 'e', 's', 's', '_', 'v', 'a', 'u', 'l', 't'] := by decide

/-- Character-list value of the literal `"mart"`. -/
theorem lit_mart : "mart".toList = ['m', 'a', 'r', 't'] := by decide

/-- Character-list value of the literal `"hubs"`. -/
theorem lit_hubs : "hubs".toList = ['h', 'u', 'b', 's'] := by decide

/-- Character-list value of the literal `"satellites"`. -/
theorem lit_satellites : "satellites".toList = ['s', 'a', 't', 'e', 'l', 'l', 'i', 't', 'e', 's'] := by decide

/-- Character-list value of the literal `"links"`. -/
theorem lit_links : "links".toList = ['l', 'i', 'n', 'k', 's'] := by decide

/-- Character-list value of the literal `"hub_"`. -/
theorem lit_hub_p : "hub_".toList = ['h', 'u', 'b', '_'] := by decide

/-- Character-list value of the literal `"sat_"`. -/
theorem lit_sat_p : "sat_".toList = ['s', 'a', 't', '_'] := by decide

/-- Character-list value of the literal `"eff_sat_"`. -/
theorem lit_eff_sat_p : "eff_sat_".toList = ['e', 'f', 'f', '_', 's', 'a', 't', '_'] := by decide

/-- Character-list value of the literal `"link_"`. -/
theorem lit_link_p : "link_".toList = ['l', 'i', 'n', 'k', '_'] := by decide

/-- Character-list value of the literal `"stg_"`. -/
theorem lit_stg_p : "stg_".toList = ['s', 't', 'g', '_'] := by decide

/-- Character-list value of the literal `"pit_"`. -/
theorem lit_pit_p : "pit_".toList = ['p', 'i', 't', '_'] := by decide

/-- Character-list value of the literal `".sql"`. -/
theorem lit_sql_ext : ".sql".toList = ['.', 's', 'q', 'l'] := by decide

/-- Character-list value of the literal `"/models/raw_vault/"`. -/
theorem lit_seg_raw_vault : "/models/raw_vault/".toList = ['/', 'm', 'o', 'd', 'e', 'l', 's', '/', 'r', 'a', 'w', '_', 'v', 'a', 'u', 'l', 't', '/'] := by decide

/-- Character-list value of the literal `"/hubs/hub_"`. -/
theorem lit_seg_hub : "/hubs/hub_".toList = ['/', 'h', 'u', 'b', 's', '/', 'h', 'u', 'b', '_'] := by decide

/-- Character-list value of the literal `"/satellites/sat_"`. -/
theorem lit_seg_sat : "/satellites/sat_".toList = ['/', 's', 'a', 't', 'e', 'l', 'l', 'i', 't', 'e', 's', '/', 's', 'a', 't', '_'] := by decide

/-- Character-list value of the literal `"/satellites/eff_sat_"`. -/
theorem lit_seg_eff_sat : "/satellites/eff_sat_".toList = ['/', 's', 'a', 't', 'e', 'l', 'l', 'i', 't', 'e', 's', '/', 'e', 'f', 'f', '_', 's', 'a', 't', '_'] := by decide

/-- Character-list value of the literal `"/links/link_"`. -/
theorem lit_seg_link : "/links/link_".toList = ['/', 'l', 'i', 'n', 'k', 's', '/', 'l', 'i', 'n', 'k', '_'] := by decide

/-- Character-list value of the literal `"/models/staging/stg_"`. -/
theorem lit_seg_stg : "/models/staging/stg_".toList = ['/', 'm', 'o', 'd', 'e', 'l', 's', '/', 's', 't', 'a', 'g', 'i', 'n', 'g', '/', 's', 't', 'g', '_'] := by decide

/-- Character-list value of the literal `"/models/business_vault/pit_"`. -/
theorem lit_seg_pit : "/models/business_vault/pit_".toList = ['/', 'm', 'o', 'd', 'e', 'l', 's', '/', 'b', 'u', 's', 'i', 'n', 'e', 's', 's', '_', 'v', 'a', 'u', 'l', 't', '/', 'p', 'i', 't', '_'] := by decide

/-- Character-list value of the literal `"/models/mart/"`. -/
theorem lit_seg_mart : "/models/mart/".toList = ['/', 'm', 'o', 'd', 'e', 'l', 's', '/', 'm', 'a', 'r', 't', '/'] := by decide
/-- C5: each resolver produces the kind-specific filename (fixed name
part, then the entity name, then the fixed `.sql` extension) under its
kind-specific subdirectory — `hubs/`, `satellites/`, `links/` of the
concept's raw-vault directory for the vault kinds, and the concept-free
`staging/`, `business_vault/`, `mart/` layer directories for the
staging, point-in-time and mart kinds. -/
theorem pathResolvers_shape (cfg : Config) (name concept sub : Str) :
    getHubPath cfg name concept =
      cfg.projectRoot ++ "/models/raw_vault/".toList ++ concept ++
        "/hubs/hub_".toList ++ name ++ ".sql".toList ∧
    getSatellitePath cfg name concept false =
      cfg.projectRoot ++ "/models/raw_vault/".toList ++ concept ++
        "/satellites/sat_".toList ++ name ++ ".sql".toList ∧
    getSatellitePath cfg name concept true =
      cfg.projectRoot ++ "/models/raw_vault/".toList ++ concept ++
        "/satellites/eff_sat_".toList ++ name ++ ".sql".toList ∧
    getLinkPath cfg name concept =
      cfg.projectRoot ++ "/models/raw_vault/".toList ++ concept ++
        "/links/link_".toList ++ name ++ ".sql".toList ∧
    getStagingPath cfg name =
      cfg.projectRoot ++ "/models/staging/stg_".toList ++ name ++
        ".sql".toList ∧
    getPitPath cfg name =
      cfg.projectRoot ++ "/models/business_vault/pit_".toList ++ name ++
        ".sql".toList ∧
    getMartPath cfg name none =
      cfg.projectRoot ++ "/models/mart/".toList ++ name ++ ".sql".toList ∧
    getMartPath cfg name (some sub) =
      cfg.projectRoot ++ "/models/mart/".toList ++ sub ++
        '/' :: (name ++ ".sql".toList) := by
  refine ⟨?_, ?_, ?_, ?_, ?_, ?_, ?_, ?_⟩ <;>
    simp [getHubPath, getSatellitePath, getLinkPath, getStagingPath,
      getPitPath, getMartPath, getConceptPaths, pathJoin, PATHS_models,
      PATHS_staging, PATHS_rawVault, PATHS_businessVault, PATHS_mart,
      lit_models, lit_staging, lit_raw_vault, lit_business_vault, lit_mart,
      lit_hubs, lit_satellites, lit_links, lit_hub_p, lit_sat_p,
      lit_eff_sat_p, lit_link_p, lit_stg_p, lit_pit_p, lit_sql_ext,
      lit_seg_raw_vault, lit_seg_hub, lit_seg_sat, lit_seg_eff_sat,
      lit_seg_link, lit_seg_stg, lit_seg_pit, lit_seg_mart,
      List.append_assoc]

/-- Counterexample to C1 as stated: the raw text `"zz\n01:02:03   "`
contains a timestamped line whose whitespace-only content survives the
denylist, yet the joined payload trims to the empty string, the falsy
fallback returns the raw text, and the result therefore contains the
non-timestamped line `"zz"` instead of the trimmed join of the
surviving contents. -/
theorem extractOutput_payload_counterexample :
    frameworkContent "01:02:03   ".toList = some [' '] ∧
    isStartupNoise [' '] = false ∧
    "01:02:03   ".toList ∈ splitLines "zz\n01:02:03   ".toList ∧
    extractOutput "zz\n01:02:03   ".toList = "zz\n01:02:03   ".toList ∧
    extractOutput "zz\n01:02:03   ".toList ≠
      jsTrim (List.intercalate ['\n']
        (survivingContents "zz\n01:02:03   ".toList)) ∧
    "zz".toList ∈ splitLines (extractOutput "zz\n01:02:03   ".toList) ∧
    frameworkContent "zz".toList = none := by decide

/-- A line contributes a content to `outputLines` iff it matches the
timestamp pattern with that content and the content is not startup
noise. -/
theorem keepContent_eq_some (line c : Str) :
    keepContent line = some c ↔
      frameworkContent line = some c ∧ isStartupNoise c = false := by
  unfold keepContent
  split
  next c' hfc =>
    by_cases hn : isStartupNoise c' = true
    · rw [if_pos hn]
      rw [hfc]
      constructor
      · intro h
        exact absurd h (by simp)
      · rintro ⟨h1, h2⟩
        obtain rfl := Option.some.inj h1
        exact absurd hn (by simp [h2])
    · rw [if_neg hn]
      rw [hfc]
      constructor
      · intro h
        obtain rfl := Option.some.inj h
        exact ⟨rfl, by simpa using hn⟩
      · rintro ⟨h1, _⟩
        exact h1
  next hfc =>
    simp [hfc]

/-- C1 (amended): when the newline-joined, trimmed surviving contents
are non-empty, the extractor returns exactly them, the surviving list
contains the content of every timestamped non-denylisted line, and
every surviving content comes from such a line (so denylisted and
non-timestamped lines are excluded), in original order. -/
theorem extractOutput_payload_characterisation (raw : Str)
    (h : jsTrim (List.intercalate ['\n'] (survivingContents raw)) ≠ []) :
    extractOutput raw =
      jsTrim (List.intercalate ['\n'] (survivingContents raw)) ∧
    (∀ line ∈ splitLines raw, ∀ c, frameworkContent line = some c →
      isStartupNoise c = false → c ∈ survivingContents raw) ∧
    (∀ c ∈ survivingContents raw, ∃ line ∈ splitLines raw,
      frameworkContent line = some c ∧ isStartupNoise c = false) := by
  refine ⟨?_, ?_, ?_⟩
  · simp [extractOutput, isEmpty_false_of_ne_nil h]
  · intro line hline c hc hnoise
    simp only [survivingContents, List.mem_filterMap]
    exact ⟨line, hline, (keepContent_eq_some line c).mpr ⟨hc, hnoise⟩⟩
  · intro c hc
    simp only [survivingContents, List.mem_filterMap] at hc
    obtain ⟨line, hline, hf⟩ := hc
    obtain ⟨h1, h2⟩ := (keepContent_eq_some line c).mp hf
    exact ⟨line, hline, h1, h2⟩

/-- Witness for C1 (amended) on `"noise\n01:02:03  hello"`: the noise
line is dropped and the payload is exactly `"hello"`. -/
theorem extractOutput_payload_characterisation_witness :
    extractOutput "noise\n01:02:03  hello".toList = "hello".toList :=
  ((extractOutput_payload_characterisation "noise\n01:02:03  hello".toList
      (by decide)).1).trans (by decide)

/-- Counterexample to C7 as stated: the line `"01:02:03\t\tfoo"` does
not carry two space characters after the timestamp, yet the code
classifies it as a framework line with content `"foo"`, because the
regular expression uses `\s{2}`, which any two JavaScript whitespace
characters satisfy. -/
theorem frameworkLine_two_spaces_counterexample :
    frameworkContent "01:02:03\t\tfoo".toList = some "foo".toList ∧
    specTimestampTwoSpaces "01:02:03\t\tfoo".toList = false := by decide

/-- C7 (amended): a line is classified as a framework line iff it
begins with `HH:MM:SS` followed by exactly two JavaScript whitespace
characters and its remainder contains no line terminator; the candidate
content is exactly the remainder after the ten-character prefix; every
other line is discarded. -/
theorem frameworkLine_classification (line : Str) :
    frameworkContent line =
      if specTimestampShape line then some (line.drop 10) else none := by
  rcases line with _ | ⟨d1, _ | ⟨d2, _ | ⟨c1, _ | ⟨d3, _ | ⟨d4, _ | ⟨c2, _ |
    ⟨d5, _ | ⟨d6, _ | ⟨w1, _ | ⟨w2, rest⟩⟩⟩⟩⟩⟩⟩⟩⟩⟩
  all_goals try rfl
  have h1 : specTimestampShape
      (d1 :: d2 :: c1 :: d3 :: d4 :: c2 :: d5 :: d6 :: w1 :: w2 :: rest) =
      (d1.isDigit && d2.isDigit && c1 == ':' && d3.isDigit && d4.isDigit &&
       c2 == ':' && d5.isDigit && d6.isDigit &&
       jsWhitespace w1 && jsWhitespace w2 &&
       rest.all (fun c => !(jsLineTerminator c))) := by
    simp [specTimestampShape, List.getD]
  rw [h1]
  rfl

/-- C9: appending pushes the definition as last element of the tables
list of the first source group that has a `tables` key, preserving
every other group and every other key of the document; when no group
has a `tables` key, the function performs no write. -/
theorem appendToSourcesYaml_spec {τ ε δ : Type} (doc : SourcesDoc τ ε δ)
    (td : τ) :
    ((∀ g ∈ doc.sources, g.tables = none) →
      appendToSourcesYaml doc td = none) ∧
    (∀ pre g post ts, doc.sources = pre ++ g :: post →
      (∀ g' ∈ pre, g'.tables = none) → g.tables = some ts →
      appendToSourcesYaml doc td = some
        { sources := pre ++ { g with tables := some (ts ++ [td]) } :: post,
          extra := doc.extra }) := by
  have hnone : ∀ gs : List (SourceGroup τ ε), (∀ g ∈ gs, g.tables = none) →
      pushToFirstTables td gs = none := by
    intro gs
    induction gs with
    | nil => intro _; rfl
    | cons g gs ih =>
      intro h
      have hg : g.tables = none := h g (List.mem_cons_self g gs)
      simp [pushToFirstTables, hg,
        ih fun g' hg' => h g' (List.mem_cons_of_mem _ hg')]
  have hsome : ∀ (pre : List (SourceGroup τ ε)) g post ts,
      (∀ g' ∈ pre, g'.tables = none) → g.tables = some ts →
      pushToFirstTables td (pre ++ g :: post) =
        some (pre ++ { g with tables := some (ts ++ [td]) } :: post) := by
    intro pre
    induction pre with
    | nil =>
      intro g post ts _ hg
      simp [pushToFirstTables, hg]
    | cons p ps ih =>
      intro g post ts hpre hg
      have hp : p.tables = none := hpre p (List.mem_cons_self p ps)
      simp [pushToFirstTables, hp,
        ih g post ts (fun g' h' => hpre g' (List.mem_cons_of_mem _ h')) hg]
  constructor
  · intro h
    simp [appendToSourcesYaml, hnone doc.sources h]
  · intro pre g post ts hsplit hpre hg
    simp [appendToSourcesYaml, hsplit, hsome pre g post ts hpre hg]

/-- Witness for C9: in a document with three groups (the first without
a `tables` key), the definition is appended at the end of the second
group's tables and everything else, including the extra key, is
preserved. -/
theorem appendToSourcesYaml_spec_witness :
    appendToSourcesYaml (τ := Nat) (ε := Nat) (δ := Nat)
      { sources := [⟨none, 1⟩, ⟨some [7, 8], 2⟩, ⟨some [9], 3⟩], extra := 4 }
      5 =
      some { sources := [⟨none, 1⟩, ⟨some [7, 8, 5], 2⟩, ⟨some [9], 3⟩],
             extra := 4 } :=
  (appendToSourcesYaml_spec
      { sources := [⟨none, 1⟩, ⟨some [7, 8], 2⟩, ⟨some [9], 3⟩], extra := 4 }
      5).2
    [⟨none, 1⟩] ⟨some [7, 8], 2⟩ [⟨some [9], 3⟩] [7, 8] rfl (by simp) rfl
